import Mathlib

/-!
Verification development for the `qwen_tts` client
(`src/qwen_tts/client.py`).  The Python code is shallowly embedded:
JSON/Python values become the inductive type `Json`, Python exceptions
become the inductive type `PyExc`, fallible code returns `Except`, and
the behaviour of the external HTTP/SSE libraries is supplied as explicit
parameters (an `HttpOutcome` for the POST in `_join_queue`, a list of
timestamped frames/events for the SSE stream consumed by `tts`).
-/

/-- JSON values as decoded by `json.loads`, which is also how the client
manipulates every payload (numbers restricted to integers; no claim
involves fractional values). -/
inductive Json where
  | null : Json
  | bool (b : Bool) : Json
  | num (n : Int) : Json
  | str (s : String) : Json
  | arr (xs : List Json) : Json
  | obj (fields : List (String × Json)) : Json

/-- Python truthiness (`if x:`) of a decoded JSON value: `None`, `False`,
`0`, `""`, `[]`, `{}` are falsy, everything else truthy. -/
def Json.truthy : Json → Bool
  | .null => false
  | .bool b => b
  | .num n => n != 0
  | .str s => s != ""
  | .arr xs => !xs.isEmpty
  | .obj fs => !fs.isEmpty

/-- Truthiness of a value that may be absent (`dict.get` returns `None`
for a missing key, and `None` is falsy). -/
def truthyOpt : Option Json → Bool
  | none => false
  | some j => j.truthy

/-- Python exceptions that the embedded code can raise.  `timeoutExc` is
`requests.exceptions.Timeout`, `requestExc` is
`requests.exceptions.RequestException` (carrying the message built at the
raise site), and the rest are the builtin exception kinds the code can
hit (`ValueError`, `AttributeError` from calling `.get` on a non-dict,
`TypeError` from `len`/indexing on an unsuitable value, `KeyError`,
`UnboundLocalError` from reading a never-assigned local,
`KeyboardInterrupt`, and a catch-all for anything else such as a JSON
decode failure of the ack body). -/
inductive PyExc where
  | timeoutExc (msg : String) : PyExc
  | requestExc (msg : String) : PyExc
  | valueError (msg : String) : PyExc
  | attributeError (msg : String) : PyExc
  | typeError (msg : String) : PyExc
  | keyError (msg : String) : PyExc
  | unboundLocal (name : String) : PyExc
  | keyboardInterrupt : PyExc
  | otherExc (msg : String) : PyExc
  deriving Repr, DecidableEq

/-- Python `x == s` for a decoded value `x` (possibly `None` from a
missing key) against a string literal `s`: true exactly when `x` is that
string. -/
def eqStr (m : Option Json) (s : String) : Bool :=
  match m with
  | some (.str t) => t == s
  | _ => false

/-- `d.get(k)` on a Python value: returns the value at the (first) binding
of `k` for a dict, `None` (here `Option.none`) when the key is absent,
and raises `AttributeError` when the receiver is not a dict. -/
def dictGet (j : Json) (k : String) : Except PyExc (Option Json) :=
  match j with
  | .obj fs => .ok (fs.lookup k)
  | _ => .error (.attributeError ("object has no attribute get: " ++ k))

/-- `d.get(k, default)` on a Python value: the stored value when the key
is present (even when that value is `null`), the default otherwise;
`AttributeError` on a non-dict receiver. -/
def dictGetD (j : Json) (k : String) (d : Json) : Except PyExc Json :=
  match j with
  | .obj fs => .ok ((fs.lookup k).getD d)
  | _ => .error (.attributeError ("object has no attribute get: " ++ k))

/-- Python dict assignment `d[k] = v` on an association list: replaces the
first binding of `k` in place, appends at the end when absent. -/
def setKey : List (String × Json) → String → Json → List (String × Json)
  | [], k, v => [(k, v)]
  | (k', v') :: rest, k, v =>
      if k' = k then (k, v) :: rest else (k', v') :: setKey rest k v

/-- `len(x)` on a decoded JSON value: defined for lists, dicts and
strings, `TypeError` otherwise. -/
def pyLen : Json → Except PyExc Nat
  | .arr xs => .ok xs.length
  | .obj fs => .ok fs.length
  | .str s => .ok s.length
  | _ => .error (.typeError "object has no len")

/-- `x[0]` on a decoded JSON value: head of a list (`IndexError` when
empty), first character of a string, `KeyError` for a dict (decoded JSON
dict keys are strings, so the integer key `0` is never present), and
`TypeError` otherwise. -/
def pyIndex0 : Json → Except PyExc Json
  | .arr [] => .error (.otherExc "IndexError: list index out of range")
  | .arr (x :: _) => .ok x
  | .str s =>
      match s.toList with
      | [] => .error (.otherExc "IndexError: string index out of range")
      | c :: _ => .ok (.str (String.mk [c]))
  | .obj _ => .error (.keyError "0")
  | _ => .error (.typeError "object is not subscriptable")

mutual
/-- Python `repr` of a decoded JSON value (string escaping is not
modelled; no claim exercises it). -/
def pyRepr : Json → String
  | .null => "None"
  | .bool b => if b then "True" else "False"
  | .num n => toString n
  | .str s => "'" ++ s ++ "'"
  | .arr xs => "[" ++ pyReprList xs ++ "]"
  | .obj fs => "\x7b" ++ pyReprFields fs ++ "\x7d"

/-- Comma-separated `repr`s of list elements. -/
def pyReprList : List Json → String
  | [] => ""
  | [x] => pyRepr x
  | x :: xs => pyRepr x ++ ", " ++ pyReprList xs

/-- Comma-separated `repr`s of dict entries. -/
def pyReprFields : List (String × Json) → String
  | [] => ""
  | [(k, v)] => "'" ++ k ++ "': " ++ pyRepr v
  | (k, v) :: fs => "'" ++ k ++ "': " ++ pyRepr v ++ ", " ++ pyReprFields fs
end

/-- Python `str(x)` (what an f-string interpolation such as
`f"\x7baudio_url\x7d"` produces): the string itself for a string, `repr`
otherwise. -/
def pyStr : Json → String
  | .str s => s
  | j => pyRepr j

/-- `string.ascii_lowercase + string.digits`, the alphabet used by
`_generate_session_hash`. -/
def sessionChars : List Char := "abcdefghijklmnopqrstuvwxyz0123456789".toList

/-- `QwenTTSClient._generate_session_hash(length=9)`:
`''.join(random.choices(characters, k=length))`.  The random source is
abstracted as `choice : Nat → Nat`, giving for each of the `length`
draws an arbitrary index; `random.choices` always picks inside the
population, which the reduction modulo `sessionChars.length` expresses. -/
def generate_session_hash (choice : Nat → Nat) (length : Nat := 9) : String :=
  String.mk ((List.range length).map fun i =>
    sessionChars.getD (choice i % sessionChars.length) 'a')

/-- Outcome of the `self.session.post(...)` call in `_join_queue`, as seen
by the client: the POST timed out (`requests.exceptions.Timeout`), it
failed at transport level before any response existed (a
`requests.exceptions.RequestException` such as `ConnectionError`), or a
response arrived with a status code, a body text, and the body's JSON
decoding (`none` when `response.json()` would fail). -/
inductive HttpOutcome where
  | timeout : HttpOutcome
  | transportError : HttpOutcome
  | response (status : Nat) (body : String) (bodyJson : Option Json) : HttpOutcome

/-- The JSON payload `_join_queue` POSTs to `/gradio_api/queue/join`. -/
def joinPayload (text voice mode : String) (fn_index trigger_id : Int)
    (session_hash : String) : Json :=
  Json.obj [("data", .arr [.str text, .str voice, .str mode]),
            ("event_data", .null),
            ("fn_index", .num fn_index),
            ("trigger_id", .num trigger_id),
            ("session_hash", .str session_hash)]

/-- `QwenTTSClient._join_queue`: generate a session hash, POST the
payload, `raise_for_status()`, decode the body, and store the hash into
the decoded ack (`result["session_hash"] = session_hash`).

Exception behaviour translated from the `try/except` in the source:
a `Timeout` is re-raised as `Timeout("加入队列请求超时")`; any other
`RequestException` is re-raised as
`RequestException(f"加入队列请求失败: \x7bresponse.text\x7d")` — but when
the POST itself failed at transport level, the local `response` was never
assigned, so evaluating that f-string raises `UnboundLocalError`
instead.  `raise_for_status` raises exactly for status codes in
[400, 600).  After the `try`, `response.json()` raises a decode error
when the body is not JSON, and the item assignment raises `TypeError`
when the decoded body is not a dict. -/
def join_queue (choice : Nat → Nat) (text voice mode : String)
    (out : HttpOutcome) : Except PyExc Json :=
  let session_hash := generate_session_hash choice 9
  let _payload := joinPayload text voice mode 1 7 session_hash
  match out with
  | .timeout => .error (.timeoutExc "加入队列请求超时")
  | .transportError => .error (.unboundLocal "response")
  | .response status body bodyJson =>
      if 400 ≤ status ∧ status < 600 then
        .error (.requestExc ("加入队列请求失败: " ++ body))
      else
        match bodyJson with
        | none => .error (.otherExc "JSONDecodeError: Expecting value")
        | some (.obj fs) => .ok (.obj (setKey fs "session_hash" (.str session_hash)))
        | some _ => .error (.typeError "indices must be integers")

/-- Body of the `for event in client.events()` loop in
`QwenTTSClient._poll_data`: decode the frame's data as JSON and yield the
result; on decode failure yield `{"raw": event.data, "error": str(e)}`.
The external `json.loads` is supplied as `jsonLoads` (its error case
carrying `str(e)`). -/
def decodeFrame (jsonLoads : String → Except String Json) (d : String) : Json :=
  match jsonLoads d with
  | .ok parsed => parsed
  | .error e => .obj [("raw", .str d), ("error", .str e)]

/-- `QwenTTSClient._poll_data` restricted to an established stream: the
sequence of events yielded for a given sequence of SSE frame payloads.
Every frame yields exactly one event, in order. -/
def poll_data (jsonLoads : String → Except String Json)
    (frames : List String) : List Json :=
  frames.map (decodeFrame jsonLoads)

/-- Body of the `for event in self._poll_data(...)` loop in
`QwenTTSClient.tts`, after the elapsed-time check, for one event:

* informational messages (`send_hash`, `queue_full`, `estimation`) are
  logged and the loop continues (`.ok none`);
* `process_completed` is terminal: with a truthy `success` flag the code
  reads `event.get("output", \x7b\x7d).get("data", [])`, and when that
  list is truthy and non-empty takes its first element and returns its
  `url` via `f"\x7baudio_url\x7d"` when truthy, falling through to
  `return None` otherwise; with a falsy `success` flag it logs
  `event.get('output')` and returns `None` (`.ok (some r)` is
  `return r`);
* any other message falls through the `elif` chain and the loop
  continues.

Attribute/key/type errors raised by these operations on unexpected
shapes escape the loop (`.error e`). -/
def processEvent (event : Json) : Except PyExc (Option (Option String)) :=
  match dictGet event "msg" with
  | .error e => .error e
  | .ok msg =>
    if eqStr msg "send_hash" || eqStr msg "queue_full" || eqStr msg "estimation" then
      .ok none
    else if eqStr msg "process_completed" then
      match dictGet event "success" with
      | .error e => .error e
      | .ok success =>
        if truthyOpt success then
          match dictGetD event "output" (.obj []) with
          | .error e => .error e
          | .ok output =>
            match dictGetD output "data" (.arr []) with
            | .error e => .error e
            | .ok output_data =>
              if output_data.truthy then
                match pyLen output_data with
                | .error e => .error e
                | .ok n =>
                  if n > 0 then
                    match pyIndex0 output_data with
                    | .error e => .error e
                    | .ok audio_info =>
                      match dictGet audio_info "url" with
                      | .error e => .error e
                      | .ok audio_url =>
                        match audio_url with
                        | some u =>
                          if u.truthy then .ok (some (some (pyStr u)))
                          else .ok (some none)
                        | none => .ok (some none)
                  else .ok (some none)
              else .ok (some none)
        else .ok (some none)
    else .ok none

/-- The event-consumption loop of `QwenTTSClient.tts` over the sequence
of events yielded by `_poll_data`, each paired with the value of
`time.time()` at the moment its loop iteration starts.  Before
interpreting an event the code checks
`time.time() - start_time > timeout` and returns `None` when it holds.
When the event list is exhausted the stream either ended normally
(`endExc = none`; control falls past the loop and `tts` returns `None`)
or the underlying connection raised (`endExc = some e`, e.g. the
`RequestException` re-raised by `_poll_data`, surfacing at the `for`). -/
def ttsLoop (startTime timeout : Int) :
    List (Int × Json) → Option PyExc → Except PyExc (Option String)
  | [], none => .ok none
  | [], some e => .error e
  | (t, event) :: rest, endExc =>
      if t - startTime > timeout then .ok none
      else
        match processEvent event with
        | .error e => .error e
        | .ok (some r) => .ok r
        | .ok none => ttsLoop startTime timeout rest endExc

/-- The body of the `try` in `QwenTTSClient.tts`: call `_join_queue`
(its result — normal return or exception — supplied as `joinResult`),
read `join_response.get("session_hash")`, raise `ValueError` when it is
falsy, then run the polling loop.  `.error e` means the exception `e`
reaches the `except` clauses of `tts`. -/
def ttsRun (joinResult : Except PyExc Json) (events : List (Int × Json))
    (endExc : Option PyExc) (startTime timeout : Int) :
    Except PyExc (Option String) :=
  match joinResult with
  | .error e => .error e
  | .ok join_response =>
    match dictGet join_response "session_hash" with
    | .error e => .error e
    | .ok session_hash =>
      if truthyOpt session_hash then ttsLoop startTime timeout events endExc
      else .error (.valueError "从加入队列响应中获取会话哈希失败")

/-- `QwenTTSClient.tts`: the `try` body (`ttsRun`) wrapped in the
`except` clauses, every one of which (`RequestException`, `ValueError`,
`KeyboardInterrupt`, `Exception`) logs and returns `None`. -/
def tts (joinResult : Except PyExc Json) (events : List (Int × Json))
    (endExc : Option PyExc) (startTime timeout : Int) : Option String :=
  match ttsRun joinResult events endExc startTime timeout with
  | .ok r => r
  | .error _ => none

/-- An event on which the orchestrator's loop just continues: received
within the time budget and interpreted as informational or ignored. -/
def ContinueEvent (startTime timeout : Int) (te : Int × Json) : Prop :=
  ¬ te.1 - startTime > timeout ∧ processEvent te.2 = Except.ok none

/-- A concrete `json.loads` stand-in for witnesses: decodes the empty
object and rejects everything else. -/
def jsonLoadsW : String → Except String Json := fun s =>
  if s = "\x7b\x7d" then Except.ok (Json.obj []) else Except.error "Expecting value"

/-- Looking up the key just stored by `setKey` yields the stored value,
whatever bindings (including one for the same key) were already
present. -/
theorem lookup_setKey (fs : List (String × Json)) (k : String) (v : Json) :
    (setKey fs k v).lookup k = some v := by
  induction fs with
  | nil => simp [setKey, List.lookup]
  | cons kv rest ih =>
      obtain ⟨k', v'⟩ := kv
      by_cases h : k' = k
      · subst h
        simp [setKey, List.lookup]
      · simp [setKey, h, List.lookup, ih, beq_false_of_ne (Ne.symm h)]

/-- A prefix of continue-events does not change what the polling loop
computes on the remaining events. -/
theorem ttsLoop_append_continue (startTime timeout : Int) :
    ∀ (pre rest : List (Int × Json)) (endExc : Option PyExc),
      (∀ te ∈ pre, ContinueEvent startTime timeout te) →
      ttsLoop startTime timeout (pre ++ rest) endExc
        = ttsLoop startTime timeout rest endExc
  | [], _, _, _ => rfl
  | (t, e) :: pre, rest, ee, hpre => by
      obtain ⟨h1, h2⟩ := hpre (t, e) (List.mem_cons_self _ _)
      have ih := ttsLoop_append_continue startTime timeout pre rest ee
        (fun x hx => hpre x (List.mem_cons_of_mem _ hx))
      simp [ttsLoop, h1, h2, ih]

/-- A stream made only of events the loop does not act on, exhausted
normally, makes the loop fall through with no result. -/
theorem ttsLoop_none_of_all (startTime timeout : Int) :
    ∀ events : List (Int × Json),
      (∀ te ∈ events, processEvent te.2 = Except.ok none) →
      ttsLoop startTime timeout events none = Except.ok none
  | [], _ => rfl
  | (t, e) :: rest, hev => by
      have h2 := hev (t, e) (List.mem_cons_self _ _)
      have ih := ttsLoop_none_of_all startTime timeout rest
        (fun x hx => hev x (List.mem_cons_of_mem _ hx))
      by_cases h1 : t - startTime > timeout
      · simp [ttsLoop, h1]
      · simp [ttsLoop, h1, h2, ih]

/-- When the submit ack carries a truthy session hash, `tts` is the
polling loop with exceptions converted to `none` at the boundary. -/
theorem tts_of_ttsLoop (j v : Json) (events : List (Int × Json))
    (ee : Option PyExc) (s tmo : Int)
    (hv : dictGet j "session_hash" = Except.ok (some v)) (hvt : v.truthy = true) :
    tts (Except.ok j) events ee s tmo
      = match ttsLoop s tmo events ee with
        | .ok r => r
        | .error _ => none := by
  simp [tts, ttsRun, hv, truthyOpt, hvt]

/-- Every character of the generator's alphabet is a lowercase ASCII
letter or a digit. -/
theorem sessionChars_charset : ∀ c ∈ sessionChars,
    ('a' ≤ c ∧ c ≤ 'z') ∨ ('0' ≤ c ∧ c ≤ '9') := by decide

/-- The generated session hash has exactly the requested length. -/
theorem generate_session_hash_length (choice : Nat → Nat) (n : Nat) :
    (generate_session_hash choice n).length = n := by
  show (List.map _ (List.range n)).length = n
  simp

/-- Claim C9: for every requested length `n` (default 9) and every
random draw, `_generate_session_hash(n)` returns a string of length
exactly `n` all of whose characters are lowercase ASCII letters or
digits, with no failure mode (the function is total). -/
theorem C9_generate_session_hash_spec (choice : Nat → Nat) (n : Nat) :
    (generate_session_hash choice n).length = n ∧
    ∀ c ∈ (generate_session_hash choice n).toList,
      ('a' ≤ c ∧ c ≤ 'z') ∨ ('0' ≤ c ∧ c ≤ '9') := by
  refine ⟨generate_session_hash_length choice n, ?_⟩
  intro c hc
  have hc' : c ∈ (List.range n).map fun i =>
      sessionChars.getD (choice i % sessionChars.length) 'a' := hc
  rw [List.mem_map] at hc'
  obtain ⟨i, _, rfl⟩ := hc'
  have hlt : choice i % sessionChars.length < sessionChars.length :=
    Nat.mod_lt _ (by decide)
  rw [List.getD_eq_getElem _ _ hlt]
  exact sessionChars_charset _ (List.getElem_mem hlt)

/-- Claim C2 (the failing input evaluated): when the POST raises a
transport-level `RequestException` before any response is bound, the
`except` handler's f-string reads the never-assigned local `response`,
so `_join_queue` raises `UnboundLocalError` — not the Timeout-kind or
RequestFailure-kind exception the claim allows. -/
theorem C2_transport_error_raises_unbound_local :
    join_queue (fun k => k) "你好" "Roy / 闽南-阿杰" "Auto / 自动"
        HttpOutcome.transportError
      = Except.error (PyExc.unboundLocal "response") := rfl

/-- Claim C3: whatever failure arises inside the `try` of `tts` — submit
timeout or request failure (`joinResult` an error), missing session
token (`ValueError`), user interrupt, or any unexpected error — the
exception is caught at the boundary and `tts` returns `none`. -/
theorem C3_failures_become_no_result (jr : Except PyExc Json)
    (events : List (Int × Json)) (ee : Option PyExc) (s tmo : Int) (e : PyExc)
    (h : ttsRun jr events ee s tmo = Except.error e) :
    tts jr events ee s tmo = none := by
  simp [tts, h]

/-- Witness for C3 at a concrete failing submit (a join timeout). -/
theorem C3_witness :
    tts (Except.error (PyExc.timeoutExc "加入队列请求超时")) [] none 0 60 = none :=
  C3_failures_become_no_result _ [] none 0 60
    (PyExc.timeoutExc "加入队列请求超时") rfl

/-- Claim C6: a frame whose data fails JSON decoding does not terminate
`_poll_data`: that frame yields the raw/error event, the frames before
and after it are still decoded and yielded in order, and every valid
later frame still decodes to its parsed value. -/
theorem C6_malformed_frame_not_terminal
    (jsonLoads : String → Except String Json) (pre post : List String)
    (d err : String) (hd : jsonLoads d = Except.error err) :
    poll_data jsonLoads (pre ++ d :: post)
      = poll_data jsonLoads pre
          ++ Json.obj [("raw", .str d), ("error", .str err)]
            :: poll_data jsonLoads post
      ∧ ∀ d' ∈ post, ∀ p, jsonLoads d' = Except.ok p
          → decodeFrame jsonLoads d' = p := by
  constructor
  · simp [poll_data, decodeFrame, hd]
  · intro d' _ p hp
    simp [decodeFrame, hp]

/-- Witness for C6: a malformed frame between two valid frames yields
the raw/error event in place, with both neighbours still decoded. -/
theorem C6_witness :
    poll_data jsonLoadsW (["\x7b\x7d"] ++ "bad" :: ["\x7b\x7d"])
      = poll_data jsonLoadsW ["\x7b\x7d"]
          ++ Json.obj [("raw", .str "bad"), ("error", .str "Expecting value")]
            :: poll_data jsonLoadsW ["\x7b\x7d"] :=
  (C6_malformed_frame_not_terminal jsonLoadsW ["\x7b\x7d"] ["\x7b\x7d"]
    "bad" "Expecting value" rfl).1

/-- Any normal return of `_join_queue` carries the freshly generated
session hash under `"session_hash"`. -/
theorem join_queue_ok_token (choice : Nat → Nat) (text voice mode : String)
    (out : HttpOutcome) (j : Json)
    (h : join_queue choice text voice mode out = Except.ok j) :
    dictGet j "session_hash"
      = Except.ok (some (.str (generate_session_hash choice 9))) := by
  cases out with
  | timeout => simp [join_queue] at h
  | transportError => simp [join_queue] at h
  | response status body bodyJson =>
      by_cases hs : 400 ≤ status ∧ status < 600
      · simp [join_queue, hs] at h
      · cases bodyJson with
        | none => simp [join_queue, hs] at h
        | some b =>
            cases b <;> simp [join_queue, hs] at h
            subst h
            simp [dictGet, lookup_setKey]

/-- Claim C8: for every successful submit exchange (a response whose
body decodes to a dict, not rejected by `raise_for_status`), the mapping
`_join_queue` returns is the decoded acknowledgment with the session
token generated at the start of the call stored under `"session_hash"`,
overwriting any server-provided binding of that key. -/
theorem C8_token_merged_into_ack (choice : Nat → Nat)
    (text voice mode body : String) (status : Nat)
    (fs : List (String × Json)) (j : Json)
    (h : join_queue choice text voice mode
          (.response status body (some (.obj fs))) = Except.ok j) :
    j = Json.obj (setKey fs "session_hash"
          (.str (generate_session_hash choice 9)))
      ∧ dictGet j "session_hash"
          = Except.ok (some (.str (generate_session_hash choice 9))) := by
  by_cases hs : 400 ≤ status ∧ status < 600
  · simp [join_queue, hs] at h
  · simp [join_queue, hs] at h
    subst h
    simp [dictGet, lookup_setKey]

/-- Witness for C8: a 200 response whose ack already binds
`"session_hash"` to a server value; the returned mapping carries the
generated token (here `"aaaaaaaaa"`) instead. -/
theorem C8_witness :
    (Json.obj [("msg", Json.str "ok"), ("session_hash", Json.str "aaaaaaaaa")]
        = Json.obj (setKey [("msg", Json.str "ok"), ("session_hash", Json.str "server")]
            "session_hash" (.str (generate_session_hash (fun _ => 0) 9))))
      ∧ dictGet (Json.obj [("msg", Json.str "ok"), ("session_hash", Json.str "aaaaaaaaa")])
          "session_hash"
        = Except.ok (some (.str (generate_session_hash (fun _ => 0) 9))) :=
  C8_token_merged_into_ack (fun _ => 0) "t" "v" "m" "body" 200
    [("msg", Json.str "ok"), ("session_hash", Json.str "server")]
    (Json.obj [("msg", Json.str "ok"), ("session_hash", Json.str "aaaaaaaaa")]) rfl

/-- Claim C10 (implicit): whenever `_join_queue` returns normally, the
`"session_hash"` value `tts` reads from the ack is the freshly generated
token — a non-empty, hence truthy, string — so the `ValueError` branch
of `tts` is unreachable and `ttsRun` proceeds straight to the polling
loop. -/
theorem C10_missing_token_branch_unreachable (choice : Nat → Nat)
    (text voice mode : String) (out : HttpOutcome) (j : Json)
    (events : List (Int × Json)) (ee : Option PyExc) (s tmo : Int)
    (h : join_queue choice text voice mode out = Except.ok j) :
    dictGet j "session_hash"
        = Except.ok (some (.str (generate_session_hash choice 9)))
      ∧ (Json.str (generate_session_hash choice 9)).truthy = true
      ∧ ttsRun (Except.ok j) events ee s tmo = ttsLoop s tmo events ee := by
  have htok := join_queue_ok_token choice text voice mode out j h
  have hne : generate_session_hash choice 9 ≠ "" := by
    intro he
    have hl := generate_session_hash_length choice 9
    rw [he] at hl
    simp at hl
  have htr : (Json.str (generate_session_hash choice 9)).truthy = true := by
    simp [Json.truthy, hne]
  refine ⟨htok, htr, ?_⟩
  simp [ttsRun, htok, truthyOpt, htr]

/-- Witness for C10 at a concrete successful exchange. -/
theorem C10_witness :
    dictGet (Json.obj [("session_hash", Json.str "aaaaaaaaa")]) "session_hash"
        = Except.ok (some (.str (generate_session_hash (fun _ => 0) 9)))
      ∧ (Json.str (generate_session_hash (fun _ => 0) 9)).truthy = true
      ∧ ttsRun (Except.ok (Json.obj [("session_hash", Json.str "aaaaaaaaa")])) [] none 0 60
          = ttsLoop 0 60 [] none :=
  C10_missing_token_branch_unreachable (fun _ => 0) "t" "v" "m"
    (.response 200 "body" (some (.obj []))) _ [] none 0 60 rfl

/-- Claim C4: in the event-consumption loop, any event received after
the elapsed wall-clock time has exceeded the caller's timeout makes
`tts` stop and return `none` without interpreting that event — the
event `e` here is arbitrary, in particular it may be a successful
terminal event carrying a URL. -/
theorem C4_elapsed_timeout_stops_early (j v e : Json)
    (pre rest : List (Int × Json)) (t : Int)
    (ee : Option PyExc) (s tmo : Int)
    (hv : dictGet j "session_hash" = Except.ok (some v))
    (hvt : v.truthy = true)
    (hpre : ∀ te ∈ pre, ContinueEvent s tmo te)
    (ht : t - s > tmo) :
    tts (Except.ok j) (pre ++ (t, e) :: rest) ee s tmo = none := by
  rw [tts_of_ttsLoop j v _ ee s tmo hv hvt,
      ttsLoop_append_continue s tmo pre _ ee hpre]
  simp [ttsLoop, ht]

/-- Witness for C4: the only event is a successful completion carrying a
valid URL, but it arrives at time 61 with a 60-second budget that
started at 0, so `tts` returns `none`. -/
theorem C4_witness :
    tts (Except.ok (Json.obj [("session_hash", Json.str "abc")]))
        [(61, Json.obj [("msg", Json.str "process_completed"),
                        ("success", Json.bool true),
                        ("output", Json.obj [("data", Json.arr
                          [Json.obj [("url", Json.str "http://x/a.wav")]])])])]
        none 0 60 = none :=
  C4_elapsed_timeout_stops_early (Json.obj [("session_hash", Json.str "abc")])
    (Json.str "abc") _ [] [] 61 none 0 60 rfl rfl (by simp) (by decide)

/-- Claim C5: a `process_completed` event whose `success` flag is falsy
(missing, `null`, `false`, `0`, empty) makes `tts` return `none`
immediately — the bindings of `fs` other than `msg` and `success`, in
particular any `output` payload, and all later events `rest` are
arbitrary and never influence the result. -/
theorem C5_failed_completion_returns_none (j v : Json)
    (pre rest : List (Int × Json)) (t : Int) (fs : List (String × Json))
    (ee : Option PyExc) (s tmo : Int)
    (hv : dictGet j "session_hash" = Except.ok (some v))
    (hvt : v.truthy = true)
    (hpre : ∀ te ∈ pre, ContinueEvent s tmo te)
    (ht : ¬ t - s > tmo)
    (hmsg : fs.lookup "msg" = some (Json.str "process_completed"))
    (hsucc : truthyOpt (fs.lookup "success") = false) :
    tts (Except.ok j) (pre ++ (t, Json.obj fs) :: rest) ee s tmo = none := by
  rw [tts_of_ttsLoop j v _ ee s tmo hv hvt,
      ttsLoop_append_continue s tmo pre _ ee hpre]
  simp [ttsLoop, ht, processEvent, dictGet, hmsg, eqStr, hsucc]

/-- Witness for C5: `success=false` with a perfectly good URL in the
output data still yields `none`. -/
theorem C5_witness :
    tts (Except.ok (Json.obj [("session_hash", Json.str "abc")]))
        [(1, Json.obj [("msg", Json.str "process_completed"),
                       ("success", Json.bool false),
                       ("output", Json.obj [("data", Json.arr
                         [Json.obj [("url", Json.str "http://x/a.wav")]])])])]
        none 0 60 = none :=
  C5_failed_completion_returns_none (Json.obj [("session_hash", Json.str "abc")])
    (Json.str "abc") [] [] 1
    [("msg", Json.str "process_completed"),
     ("success", Json.bool false),
     ("output", Json.obj [("data", Json.arr
       [Json.obj [("url", Json.str "http://x/a.wav")]])])]
    none 0 60 rfl rfl (by simp) (by decide) rfl rfl

/-- Claim C7: if the poller's sequence is exhausted (the stream ends
normally) and every received event was informational or unrecognized —
the loop continued on each of them — then `tts` returns `none`,
whatever the submit result was. -/
theorem C7_exhausted_stream_no_result (jr : Except PyExc Json)
    (events : List (Int × Json)) (s tmo : Int)
    (hev : ∀ te ∈ events, processEvent te.2 = Except.ok none) :
    tts jr events none s tmo = none := by
  cases jr with
  | error e => rfl
  | ok j =>
      cases hdg : dictGet j "session_hash" with
      | error e => simp [tts, ttsRun, hdg]
      | ok sh =>
          by_cases hsh : truthyOpt sh = true
          · simp [tts, ttsRun, hdg, hsh, ttsLoop_none_of_all s tmo events hev]
          · simp [tts, ttsRun, hdg, hsh]

/-- Witness for C7: three informational events, then the connection
closes; the result is `none`. -/
theorem C7_witness :
    tts (Except.ok (Json.obj [("session_hash", Json.str "abc")]))
        [(1, Json.obj [("msg", Json.str "send_hash")]),
         (2, Json.obj [("msg", Json.str "estimation"), ("rank", Json.num 3)]),
         (3, Json.obj [("msg", Json.str "process_starts")])]
        none 0 60 = none :=
  C7_exhausted_stream_no_result _ _ 0 60 (by
    intro te hte
    simp only [List.mem_cons, List.not_mem_nil, or_false] at hte
    rcases hte with h | h | h <;> (subst h; rfl))

/-- Counterexample to claim C1 as stated: the stream's successful
`process_completed` event has `output.data` whose first item carries no
URL while its second item carries the valid URL "http://x/a.wav".  The
claim ("locate the first output item carrying a URL and return it";
`none` only "if no URL is present") predicts `some "http://x/a.wav"`,
but the code inspects only `output_data[0]` and returns `none`. -/
theorem C1_counterexample :
    tts (Except.ok (Json.obj [("session_hash", Json.str "abc")]))
        [(1, Json.obj [("msg", Json.str "process_completed"),
                       ("success", Json.bool true),
                       ("output", Json.obj [("data", Json.arr
                         [Json.obj [("foo", Json.num 1)],
                          Json.obj [("url", Json.str "http://x/a.wav")]])])])]
        none 0 60 = none
      ∧ (none : Option String) ≠ some "http://x/a.wav" := by
  exact ⟨rfl, by simp⟩

/-- A non-empty decoded JSON list is truthy. -/
theorem truthy_arr_cons (x : Json) (xs : List Json) :
    (Json.arr (x :: xs)).truthy = true := rfl

/-- Claim C1 as amended: on a successful `process_completed` event, the
result of `tts` is determined by the FIRST item of `output.data` alone —
its `url` value when present and truthy, `none` otherwise — regardless
of what later items (`tail`) carry.  In particular, for informational
events followed by a successful completion whose first output item has a
valid URL, `tts` returns exactly that URL. -/
theorem C1_first_output_item_decides (j v : Json)
    (pre rest : List (Int × Json)) (t : Int)
    (fs ofs afs : List (String × Json)) (tail : List Json)
    (ee : Option PyExc) (s tmo : Int)
    (hv : dictGet j "session_hash" = Except.ok (some v))
    (hvt : v.truthy = true)
    (hpre : ∀ te ∈ pre, ContinueEvent s tmo te)
    (ht : ¬ t - s > tmo)
    (hmsg : fs.lookup "msg" = some (Json.str "process_completed"))
    (hsucc : truthyOpt (fs.lookup "success") = true)
    (hout : fs.lookup "output" = some (Json.obj ofs))
    (hdata : ofs.lookup "data" = some (Json.arr (Json.obj afs :: tail))) :
    tts (Except.ok j) (pre ++ (t, Json.obj fs) :: rest) ee s tmo
      = match afs.lookup "url" with
        | some w => if w.truthy then some (pyStr w) else none
        | none => none := by
  rw [tts_of_ttsLoop j v _ ee s tmo hv hvt,
      ttsLoop_append_continue s tmo pre _ ee hpre]
  cases hurl : afs.lookup "url" with
  | none =>
      simp [ttsLoop, ht, processEvent, dictGet, dictGetD, hmsg, eqStr, hsucc,
            hout, hdata, hurl, truthy_arr_cons, pyLen, pyIndex0]
  | some w =>
      by_cases hw : w.truthy = true
      · simp [ttsLoop, ht, processEvent, dictGet, dictGetD, hmsg, eqStr, hsucc,
              hout, hdata, hurl, hw, truthy_arr_cons, pyLen, pyIndex0]
      · simp [ttsLoop, ht, processEvent, dictGet, dictGetD, hmsg, eqStr, hsucc,
              hout, hdata, hurl, hw, truthy_arr_cons, pyLen, pyIndex0]

/-- Witness for the amended C1: two informational events, then a
successful completion whose first output item carries the URL; `tts`
returns exactly that URL. -/
theorem C1_witness :
    tts (Except.ok (Json.obj [("session_hash", Json.str "abc")]))
        ([(1, Json.obj [("msg", Json.str "send_hash")]),
          (2, Json.obj [("msg", Json.str "estimation"), ("rank", Json.num 3)])]
          ++ (3, Json.obj [("msg", Json.str "process_completed"),
                           ("success", Json.bool true),
                           ("output", Json.obj [("data", Json.arr
                             (Json.obj [("url", Json.str "http://x/a.wav")]
                               :: [Json.obj [("url", Json.str "http://x/b.wav")]]))])])
             :: [])
        none 0 60
      = match [("url", Json.str "http://x/a.wav")].lookup "url" with
        | some w => if w.truthy then some (pyStr w) else none
        | none => none :=
  C1_first_output_item_decides (Json.obj [("session_hash", Json.str "abc")])
    (Json.str "abc")
    [(1, Json.obj [("msg", Json.str "send_hash")]),
     (2, Json.obj [("msg", Json.str "estimation"), ("rank", Json.num 3)])]
    [] 3
    [("msg", Json.str "process_completed"),
     ("success", Json.bool true),
     ("output", Json.obj [("data", Json.arr
       (Json.obj [("url", Json.str "http://x/a.wav")]
         :: [Json.obj [("url", Json.str "http://x/b.wav")]]))])]
    [("data", Json.arr
       (Json.obj [("url", Json.str "http://x/a.wav")]
         :: [Json.obj [("url", Json.str "http://x/b.wav")]]))]
    [("url", Json.str "http://x/a.wav")]
    [Json.obj [("url", Json.str "http://x/b.wav")]]
    none 0 60 rfl rfl
    (by
      intro te hte
      simp only [List.mem_cons, List.not_mem_nil, or_false] at hte
      rcases hte with h | h <;> (subst h; exact ⟨by decide, rfl⟩))
    (by decide) rfl rfl rfl rfl
